import Mathlib

/-!
Shallow embedding of the kc-voice-assistant client (src/app/page.tsx and the
standalone recording page in src/unnamed/part_000) together with proofs of
the specified properties.

The React component state is captured as an explicit record; event handlers
become state-transition functions that additionally report the externally
observable effects (HTTP request sent, alert raised).  The outcome of the
awaited HTTP call and the ambient values produced by the browser
(timestamp string, object URL) are passed in as an environment record.
-/

namespace KCVoice

/-- Mode is the two-valued conversation selector of page.tsx. -/
inductive Mode where
  | syllabus : Mode
  | courses : Mode
deriving DecidableEq, Repr

/-- Mode.other gives the inactive mode, used to state frame conditions. -/
def Mode.other : Mode → Mode
  | .syllabus => .courses
  | .courses => .syllabus

/-- Blob models an audio blob by its byte contents. -/
abbrev Blob := List Nat

/-- ConversationEntry from page.tsx lines 11-17: query, response, optional
audio (base64) and audioUrl, and a timestamp string. -/
structure ConversationEntry where
  query : String
  response : String
  audio : Option String
  audioUrl : Option String
  timestamp : String
deriving DecidableEq, Repr

/-- AppState is the component state of Home in page.tsx: mode, text input,
the two per-mode conversation histories, the processing and playing flags,
and the recorder state (isRecording, audioBlob) exposed by the
useVoiceRecorder hook. -/
structure AppState where
  mode : Mode
  textInput : String
  syllabusConversation : List ConversationEntry
  coursesConversation : List ConversationEntry
  isProcessing : Bool
  isPlaying : Bool
  isRecording : Bool
  audioBlob : Option Blob
deriving DecidableEq, Repr

/-- transcriptOf selects the transcript belonging to a given mode. -/
def transcriptOf (s : AppState) (m : Mode) : List ConversationEntry :=
  match m with
  | .syllabus => s.syllabusConversation
  | .courses => s.coursesConversation

/-- getCurrentConversation (page.tsx lines 32-34): the transcript of the
currently active mode. -/
def getCurrentConversation (s : AppState) : List ConversationEntry :=
  match s.mode with
  | .syllabus => s.syllabusConversation
  | .courses => s.coursesConversation

/-- setCurrentConversation (page.tsx lines 37-43): apply an updater to the
transcript of the active mode, leaving the other one untouched. -/
def setCurrentConversation (s : AppState)
    (updater : List ConversationEntry → List ConversationEntry) : AppState :=
  match s.mode with
  | .syllabus => { s with syllabusConversation := updater s.syllabusConversation }
  | .courses => { s with coursesConversation := updater s.coursesConversation }

/-- setMode models the onClick handlers of the two mode-selection buttons
(page.tsx lines 197 and 208), which call the React state setter for mode. -/
def setMode (s : AppState) (m : Mode) : AppState :=
  { s with mode := m }

/-- jsTruthyStr is JavaScript truthiness of an optional string field:
undefined and the empty string are falsy. -/
def jsTruthyStr : Option String → Bool
  | none => false
  | some t => !t.isEmpty

/-- jsTrim embeds the JavaScript trim method used on the text input: remove
leading and trailing whitespace characters.  The whitespace class is modelled
on the ASCII range (space, tab, carriage return, newline). -/
def jsTrim (s : String) : String :=
  String.mk
    (((s.data.dropWhile Char.isWhitespace).reverse.dropWhile Char.isWhitespace).reverse)

/-- Input is the argument record of processConversation: optional text,
optional audio blob. -/
structure Input where
  text : Option String
  audio : Option Blob
deriving DecidableEq, Repr

/-- FormBody is the multipart form assembled in processConversation
(page.tsx lines 51-60): always the mode, the text field only when the text
is truthy, the audio part only when a blob is given. -/
structure FormBody where
  mode : Mode
  text : Option String
  audio : Option Blob
deriving DecidableEq, Repr

/-- ApiResponseData is the JSON payload of a successful response:
query, response, and an optional base64 audio string. -/
structure ApiResponseData where
  query : String
  response : String
  audio : Option String
deriving DecidableEq, Repr

/-- Env carries the ambient values for one submission: whether the awaited
POST succeeds and with what data, the value produced for the timestamp, and
the URL that the browser returns for the decoded audio blob. -/
structure Env where
  result : Except Unit ApiResponseData
  timestamp : String
  objectURL : String

/-- Effects records the externally observable effects of one handler
invocation. -/
structure Effects where
  requestSent : Option FormBody
  alertRaised : Bool
deriving DecidableEq, Repr

/-- noEffects: no request sent, no alert raised. -/
def noEffects : Effects :=
  { requestSent := none, alertRaised := false }

/-!
Base64 decoding done on received audio (page.tsx lines 66-74).

The client builds a Uint8Array from the string returned by atob, taking the
character code of each character.  atob is the forgiving-base64 decoder of
the platform; it is modelled here by its standard semantics: strip up to two
trailing padding characters when the length is a multiple of four, reject a
remaining length congruent to 1 mod 4, map every character through the
base64 alphabet and reassemble the sextets into bytes.  The byte list below
is exactly the contents of the constructed Uint8Array, one byte per
character of the decoded string.  A none result models the
InvalidCharacterError that atob throws on invalid input.
-/

/-- base64Index is the position of a character in the base64 alphabet,
none for a character that atob rejects. -/
def base64Index (c : Char) : Option Nat :=
  if 'A' ≤ c ∧ c ≤ 'Z' then some (c.toNat - 65)
  else if 'a' ≤ c ∧ c ≤ 'z' then some (c.toNat - 71)
  else if '0' ≤ c ∧ c ≤ '9' then some (c.toNat + 4)
  else if c = '+' then some 62
  else if c = '/' then some 63
  else none

/-- decodeChars maps every character through the alphabet, failing on the
first invalid one. -/
def decodeChars : List Char → Option (List Nat)
  | [] => some []
  | c :: cs =>
    match base64Index c, decodeChars cs with
    | some v, some vs => some (v :: vs)
    | _, _ => none

/-- sextetsToBytes reassembles 6-bit values into 8-bit bytes, four sextets
giving three bytes; a trailing pair or triple yields the one or two complete
bytes it determines. -/
def sextetsToBytes : List Nat → List Nat
  | a :: b :: c :: d :: rest =>
      (a * 4 + b / 16) :: ((b % 16) * 16 + c / 4) :: ((c % 4) * 64 + d)
        :: sextetsToBytes rest
  | [a, b] => [a * 4 + b / 16]
  | [a, b, c] => [a * 4 + b / 16, (b % 16) * 16 + c / 4]
  | _ => []

/-- dropPadding drops up to two trailing padding characters. -/
def dropPadding (cs : List Char) : List Char :=
  match cs.reverse with
  | '=' :: '=' :: rest => rest.reverse
  | '=' :: rest => rest.reverse
  | _ => cs

/-- effectiveChars: the characters of the payload that carry sextets, after
padding removal. -/
def effectiveChars (s : String) : List Char :=
  if s.data.length % 4 = 0 then dropPadding s.data else s.data

/-- atobBytes is atob composed with the byte extraction the client performs:
none models the InvalidCharacterError throw, some bs the byte contents of
the constructed Uint8Array. -/
def atobBytes (s : String) : Option (List Nat) :=
  if (effectiveChars s).length % 4 = 1 then none
  else
    match decodeChars (effectiveChars s) with
    | some vals => some (sextetsToBytes vals)
    | none => none

/-- b64DecodedSize states, from the spec, the decoded size of a base64
payload: three bytes per four non-padding characters, rounding down. -/
def b64DecodedSize (s : String) : Nat :=
  3 * (effectiveChars s).length / 4

/-- audioDecodeOk is the condition under which the atob call at page.tsx
line 70 does not throw for a given response: the audio field is absent,
falsy (empty), or valid base64.  When it is false, the throw sends control
to the catch block of processConversation. -/
def audioDecodeOk (data : ApiResponseData) : Bool :=
  match data.audio with
  | none => true
  | some a => a.isEmpty || (atobBytes a).isSome

/-- responseEntry is the entry that a successful submission appends, exactly
as built in processConversation (page.tsx lines 76-82): query, response and
audio copied from the response, audioUrl present exactly when the audio
field is truthy. -/
def responseEntry (data : ApiResponseData) (env : Env) : ConversationEntry :=
  { query := data.query
    response := data.response
    audio := data.audio
    audioUrl := if jsTruthyStr data.audio then some env.objectURL else none
    timestamp := env.timestamp }

/-- processConversation (page.tsx lines 47-115).  Sets the processing flag,
builds the form body and POSTs it.  If the POST fails, or if it succeeds but
the atob call on a truthy audio field throws (audioDecodeOk is false),
control reaches the catch block: an alert is raised and nothing else is
touched.  Otherwise exactly one new entry is appended to the active
transcript, the text input is cleared and the recording is reset.  The
finally block clears the processing flag on every path.  The resetRecording
call is modelled from the spec: the useVoiceRecorder hook is not among the
sources, and the spec says reset discards the current blob. -/
def processConversation (s : AppState) (input : Input) (env : Env) :
    AppState × Effects :=
  let s1 := { s with isProcessing := true }
  let body : FormBody :=
    { mode := s1.mode
      text := if jsTruthyStr input.text then input.text else none
      audio := input.audio }
  let caught : AppState × Effects :=
    ({ s1 with isProcessing := false },
     { requestSent := some body, alertRaised := true })
  match env.result with
  | .error _ => caught
  | .ok data =>
      if audioDecodeOk data then
        let s2 := setCurrentConversation s1 (fun prev => prev ++ [responseEntry data env])
        let s3 := { s2 with textInput := "", audioBlob := none, isProcessing := false }
        (s3, { requestSent := some body, alertRaised := false })
      else caught

/-- handleVoiceSubmit (page.tsx lines 117-121): submit the recorded blob if
one exists, otherwise do nothing. -/
def handleVoiceSubmit (s : AppState) (env : Env) : AppState × Effects :=
  match s.audioBlob with
  | some b => processConversation s { text := none, audio := some b } env
  | none => (s, noEffects)

/-- handleTextSubmit (page.tsx lines 123-127): submit the untrimmed text
input if its trimmed form is non-empty, otherwise do nothing. -/
def handleTextSubmit (s : AppState) (env : Env) : AppState × Effects :=
  if !((jsTrim s.textInput).isEmpty) then
    processConversation s { text := some s.textInput, audio := none } env
  else (s, noEffects)

/-- KeyEvent is a keyboard event, as far as handleKeyPress inspects it. -/
structure KeyEvent where
  key : String
  shiftKey : Bool
deriving DecidableEq, Repr

/-- handleKeyPress (page.tsx lines 129-136): on Enter without Shift,
dispatch a text submission only when the trimmed input is non-empty and no
submission is being processed. -/
def handleKeyPress (s : AppState) (e : KeyEvent) (env : Env) :
    AppState × Effects :=
  if e.key = "Enter" && !e.shiftKey then
    if !((jsTrim s.textInput).isEmpty) && !s.isProcessing then
      handleTextSubmit s env
    else (s, noEffects)
  else (s, noEffects)

/-- textSendButtonDisabled is the disabled attribute of the text Send button
(page.tsx line 285): falsy trimmed text or processing. -/
def textSendButtonDisabled (s : AppState) : Bool :=
  (jsTrim s.textInput).isEmpty || s.isProcessing

/-- voiceSendButtonDisabled is the disabled attribute of the Send Voice
button (page.tsx line 258). -/
def voiceSendButtonDisabled (s : AppState) : Bool :=
  s.isProcessing

/-- micButtonDisabled is the disabled attribute of the microphone button
(page.tsx line 238). -/
def micButtonDisabled (s : AppState) : Bool :=
  s.isProcessing

/-- textareaDisabled is the disabled attribute of the textarea
(page.tsx line 281). -/
def textareaDisabled (s : AppState) : Bool :=
  s.isProcessing

/-- RecordState is the component state of RecordPage (src/unnamed/part_000):
the recording flag, the preview URL, the elapsed-seconds counter, the
buffered chunks, whether a MediaRecorder has been created, and whether the
timer interval runs. -/
structure RecordState where
  isRecording : Bool
  audioURL : String
  recordingTime : Nat
  chunks : List Blob
  hasRecorder : Bool
  timerRunning : Bool
deriving DecidableEq, Repr

/-- startRecording of RecordPage (part_000 lines 15-57).  getUserMedia
either grants a stream or throws; on denial the catch block raises an alert
and nothing in the component state has been touched.  On grant a recorder is
created, the chunk buffer is emptied, recording starts and the timer is
started.  The boolean returned alongside the state records whether the
alert was raised. -/
def startRecording (s : RecordState) (permission : Except Unit Unit) :
    RecordState × Bool :=
  match permission with
  | .error _ => (s, true)
  | .ok _ =>
      ({ s with
          chunks := []
          hasRecorder := true
          isRecording := true
          timerRunning := true }, false)

/-- padStart is the JavaScript string method: prepend copies of the fill
character until the length is at least the target. -/
def padStart (s : String) (n : Nat) (c : Char) : String :=
  String.mk (List.replicate (n - s.length) c) ++ s

/-- formatTime of RecordPage (part_000 lines 80-84): minutes are the floor
of seconds divided by 60, seconds are seconds mod 60, both rendered with
toString and padStart of width two with a zero fill, joined by a colon. -/
def formatTime (seconds : Nat) : String :=
  let mins := seconds / 60
  let secs := seconds % 60
  padStart (toString mins) 2 '0' ++ String.mk [':'] ++ padStart (toString secs) 2 '0'

/-!
Helper lemmas about the transcript operations, shared by several of the
theorems below.
-/

/-- Updating the active transcript leaves the inactive one untouched. -/
lemma transcriptOf_setCurrentConversation_other (s : AppState)
    (u : List ConversationEntry → List ConversationEntry) :
    transcriptOf (setCurrentConversation s u) s.mode.other
      = transcriptOf s s.mode.other := by
  cases hm : s.mode <;>
    simp [setCurrentConversation, transcriptOf, Mode.other, hm]

/-- Updating the active transcript applies the updater to it. -/
lemma transcriptOf_setCurrentConversation_self (s : AppState)
    (u : List ConversationEntry → List ConversationEntry) :
    transcriptOf (setCurrentConversation s u) s.mode
      = u (transcriptOf s s.mode) := by
  cases hm : s.mode <;>
    simp [setCurrentConversation, transcriptOf, hm]

/-- Every run of processConversation only ever extends a transcript on the
right. -/
lemma processConversation_transcript_extends (s : AppState) (input : Input)
    (env : Env) (m : Mode) :
    ∃ rest, transcriptOf (processConversation s input env).1 m
      = transcriptOf s m ++ rest := by
  cases henv : env.result with
  | error u =>
      exact ⟨[], by cases m <;> simp [processConversation, henv, transcriptOf]⟩
  | ok data =>
      by_cases hdec : audioDecodeOk data
      · cases hm : s.mode with
        | syllabus =>
            cases m with
            | syllabus =>
                exact ⟨[responseEntry data env],
                  by simp [processConversation, henv, hdec,
                    setCurrentConversation, transcriptOf, hm]⟩
            | courses =>
                exact ⟨[], by simp [processConversation, henv, hdec,
                  setCurrentConversation, transcriptOf, hm]⟩
        | courses =>
            cases m with
            | syllabus =>
                exact ⟨[], by simp [processConversation, henv, hdec,
                  setCurrentConversation, transcriptOf, hm]⟩
            | courses =>
                exact ⟨[responseEntry data env],
                  by simp [processConversation, henv, hdec,
                    setCurrentConversation, transcriptOf, hm]⟩
      · exact ⟨[], by cases m <;>
          simp [processConversation, henv, hdec, transcriptOf]⟩

/-- handleTextSubmit only ever extends a transcript on the right. -/
lemma handleTextSubmit_transcript_extends (s : AppState) (env : Env) (m : Mode) :
    ∃ rest, transcriptOf (handleTextSubmit s env).1 m = transcriptOf s m ++ rest := by
  unfold handleTextSubmit
  by_cases ht : (jsTrim s.textInput).isEmpty
  · exact ⟨[], by simp [ht]⟩
  · simpa [ht] using processConversation_transcript_extends s _ env m

/-- handleVoiceSubmit only ever extends a transcript on the right. -/
lemma handleVoiceSubmit_transcript_extends (s : AppState) (env : Env) (m : Mode) :
    ∃ rest, transcriptOf (handleVoiceSubmit s env).1 m = transcriptOf s m ++ rest := by
  unfold handleVoiceSubmit
  cases hb : s.audioBlob with
  | none => exact ⟨[], by simp⟩
  | some b => exact processConversation_transcript_extends s _ env m

/-- handleKeyPress only ever extends a transcript on the right. -/
lemma handleKeyPress_transcript_extends (s : AppState) (e : KeyEvent) (env : Env)
    (m : Mode) :
    ∃ rest, transcriptOf (handleKeyPress s e env).1 m = transcriptOf s m ++ rest := by
  unfold handleKeyPress
  by_cases h1 : e.key = "Enter" && !e.shiftKey
  · by_cases h2 : !((jsTrim s.textInput).isEmpty) && !s.isProcessing
    · simpa [h1, h2] using handleTextSubmit_transcript_extends s env m
    · exact ⟨[], by simp [h1, h2]⟩
  · exact ⟨[], by simp [h1]⟩

/-- decodeChars preserves the number of characters. -/
lemma decodeChars_length : ∀ (cs : List Char) (vs : List Nat),
    decodeChars cs = some vs → vs.length = cs.length
  | [], vs, h => by
      simp [decodeChars] at h
      simp [← h]
  | c :: cs, vs, h => by
      unfold decodeChars at h
      cases hb : base64Index c with
      | none => rw [hb] at h; simp at h
      | some v =>
          rw [hb] at h
          cases hd : decodeChars cs with
          | none => rw [hd] at h; simp at h
          | some ws =>
              rw [hd] at h
              simp at h
              have ih := decodeChars_length cs ws hd
              simp [← h, ih]

/-- sextetsToBytes turns four sextets into three bytes: its output length is
three quarters of its input length, rounded down, whenever the input length
is not congruent to 1 mod 4. -/
lemma sextetsToBytes_length : ∀ (l : List Nat), l.length % 4 ≠ 1 →
    (sextetsToBytes l).length = 3 * l.length / 4
  | [], _ => by simp [sextetsToBytes]
  | [a], h => by simp at h
  | [a, b], _ => by simp [sextetsToBytes]
  | [a, b, c], _ => by simp [sextetsToBytes]
  | a :: b :: c :: d :: rest, h => by
      have hr : rest.length % 4 ≠ 1 := by
        simp [List.length] at h
        omega
      have ih := sextetsToBytes_length rest hr
      simp [sextetsToBytes, List.length, ih]
      omega

/-- padStart pads to at least the requested length. -/
lemma padStart_length (s : String) (n : Nat) (c : Char) :
    (padStart s n c).length = max n s.length := by
  simp [padStart, String.length_append, String.length_mk, List.length_replicate]
  omega

/-- processConversation never touches the transcript of the inactive mode. -/
lemma processConversation_preserves_other (s : AppState) (input : Input)
    (env : Env) :
    transcriptOf (processConversation s input env).1 s.mode.other
      = transcriptOf s s.mode.other := by
  cases henv : env.result with
  | error u =>
      cases hm : s.mode <;>
        simp [processConversation, henv, transcriptOf, Mode.other, hm]
  | ok data =>
      by_cases hdec : audioDecodeOk data
      · cases hm : s.mode <;>
          simp [processConversation, henv, hdec, setCurrentConversation,
            transcriptOf, Mode.other, hm]
      · cases hm : s.mode <;>
          simp [processConversation, henv, hdec, transcriptOf, Mode.other, hm]

/-!
Concrete sample values used to instantiate theorems with hypotheses.
-/

/-- Sample query string. -/
def qText : String := "What is the syllabus for Class 10?"

/-- Sample response string. -/
def rText : String := "Here is the syllabus."

/-- Sample non-blank input text. -/
def hiText : String := "hi"

/-- Sample whitespace-only input text. -/
def wsText : String := "   "

/-- Sample timestamp string. -/
def tsText : String := "12:00:00"

/-- Sample object URL string. -/
def urlText : String := "blob:a"

/-- Sample successful response payload. -/
def sampleData : ApiResponseData :=
  { query := qText, response := rText, audio := none }

/-- Environment in which the POST succeeds with sampleData. -/
def sampleEnvOk : Env :=
  { result := Except.ok sampleData, timestamp := tsText, objectURL := urlText }

/-- Environment in which the POST fails. -/
def sampleEnvErr : Env :=
  { result := Except.error (), timestamp := tsText, objectURL := urlText }

/-- A state in syllabus mode with pending text input. -/
def sampleState : AppState :=
  { mode := Mode.syllabus
    textInput := hiText
    syllabusConversation := []
    coursesConversation := []
    isProcessing := false
    isPlaying := false
    isRecording := false
    audioBlob := none }

/-- A state with only whitespace in the text input and no recorded blob. -/
def idleState : AppState :=
  { sampleState with textInput := wsText }

/-- A state with a submission in flight. -/
def busyState : AppState :=
  { sampleState with isProcessing := true }

/-- An Enter key press without Shift. -/
def enterKey : KeyEvent :=
  { key := "Enter", shiftKey := false }

/-- Sample submission input carrying text. -/
def sampleInput : Input :=
  { text := some hiText, audio := none }

/-- Sample base64 payload (decodes to five bytes). -/
def sampleB64 : String := "aGVsbG8="

/-- The bytes sampleB64 decodes to. -/
def sampleBytes : List Nat := [104, 101, 108, 108, 111]

/-- A string atob rejects: its characters are not in the base64 alphabet. -/
def badB64 : String := "!!"

/-- A successful response payload whose audio field is not valid base64. -/
def cexData : ApiResponseData :=
  { query := qText, response := rText, audio := some badB64 }

/-- Environment in which the POST succeeds but the audio cannot be
decoded. -/
def cexEnv : Env :=
  { result := Except.ok cexData, timestamp := tsText, objectURL := urlText }

/-!
The claim theorems.
-/

/-- C1: for every submission made while a mode is active, the transcript of
the other mode is left unchanged, and selecting a mode (the mode-switch
operation) mutates neither transcript, so each transcript grows only through
submissions of its own mode. -/
theorem submission_preserves_other_transcript (s : AppState) (input : Input)
    (env : Env) (m m' : Mode) :
    transcriptOf (processConversation s input env).1 s.mode.other
      = transcriptOf s s.mode.other
    ∧ transcriptOf (handleTextSubmit s env).1 s.mode.other
      = transcriptOf s s.mode.other
    ∧ transcriptOf (handleVoiceSubmit s env).1 s.mode.other
      = transcriptOf s s.mode.other
    ∧ transcriptOf (setMode s m) m' = transcriptOf s m' := by
  refine ⟨processConversation_preserves_other s input env, ?_, ?_, ?_⟩
  · unfold handleTextSubmit
    by_cases ht : (jsTrim s.textInput).isEmpty
    · simp [ht]
    · simpa [ht] using processConversation_preserves_other s _ env
  · unfold handleVoiceSubmit
    cases hb : s.audioBlob with
    | none => simp
    | some b => exact processConversation_preserves_other s _ env
  · cases m' <;> simp [setMode, transcriptOf]

/-- C2 (amended): a valid text submission whose request succeeds and whose
optional audio payload decodes appends exactly one new entry, carrying the
query, response and optional audio of the response, to the transcript of the
active mode.  Without the decode condition the program can instead take the
catch path; see the counterexample below. -/
theorem text_submit_success_appends_one (s : AppState) (env : Env)
    (data : ApiResponseData)
    (ht : (jsTrim s.textInput).isEmpty = false)
    (henv : env.result = Except.ok data)
    (hdec : audioDecodeOk data = true) :
    ∃ e : ConversationEntry,
      transcriptOf (handleTextSubmit s env).1 s.mode
        = transcriptOf s s.mode ++ [e]
      ∧ e.query = data.query ∧ e.response = data.response
      ∧ e.audio = data.audio := by
  refine ⟨responseEntry data env, ?_, rfl, rfl, rfl⟩
  cases hm : s.mode <;>
    simp [handleTextSubmit, ht, processConversation, henv, hdec,
      setCurrentConversation, transcriptOf, hm]

/-- Counterexample to C2 as stated: a successful POST whose audio field is
not valid base64 makes atob throw, so the catch path runs: an alert is
raised and no entry is appended, refuting the claim that every successful
request appends exactly one entry. -/
theorem text_submit_success_appends_counterexample :
    (jsTrim sampleState.textInput).isEmpty = false
    ∧ cexEnv.result = Except.ok cexData
    ∧ transcriptOf (handleTextSubmit sampleState cexEnv).1 sampleState.mode
        = transcriptOf sampleState sampleState.mode
    ∧ (handleTextSubmit sampleState cexEnv).2.alertRaised = true
    ∧ ∀ e : ConversationEntry,
        transcriptOf (handleTextSubmit sampleState cexEnv).1 sampleState.mode
          ≠ transcriptOf sampleState sampleState.mode ++ [e] := by
  refine ⟨by decide, rfl, by decide, by decide, ?_⟩
  intro e
  have h1 : transcriptOf (handleTextSubmit sampleState cexEnv).1 sampleState.mode
      = [] := by decide
  have h2 : transcriptOf sampleState sampleState.mode = [] := rfl
  rw [h1, h2]
  simp

/-- Witness for C2 at a concrete state and successful, decodable
environment. -/
theorem text_submit_success_appends_one_witness :
    (jsTrim sampleState.textInput).isEmpty = false
    ∧ sampleEnvOk.result = Except.ok sampleData
    ∧ audioDecodeOk sampleData = true
    ∧ ∃ e : ConversationEntry,
        transcriptOf (handleTextSubmit sampleState sampleEnvOk).1 sampleState.mode
          = transcriptOf sampleState sampleState.mode ++ [e]
        ∧ e.query = sampleData.query ∧ e.response = sampleData.response
        ∧ e.audio = sampleData.audio :=
  ⟨by decide, rfl, rfl,
    text_submit_success_appends_one sampleState sampleEnvOk sampleData
      (by decide) rfl rfl⟩

/-- C3: a submission whose request fails is atomic: both transcripts, the
pending text input and the recorded blob are unchanged, an alert is raised,
and the processing flag returns to false. -/
theorem failed_submission_atomic (s : AppState) (input : Input) (env : Env)
    (henv : env.result = Except.error ()) :
    (processConversation s input env).1.syllabusConversation
      = s.syllabusConversation
    ∧ (processConversation s input env).1.coursesConversation
      = s.coursesConversation
    ∧ (processConversation s input env).1.textInput = s.textInput
    ∧ (processConversation s input env).1.audioBlob = s.audioBlob
    ∧ (processConversation s input env).2.alertRaised = true
    ∧ (processConversation s input env).1.isProcessing = false := by
  simp [processConversation, henv]

/-- Witness for C3 at a concrete state and failing environment. -/
theorem failed_submission_atomic_witness :
    sampleEnvErr.result = Except.error ()
    ∧ ((processConversation sampleState sampleInput sampleEnvErr).1.syllabusConversation
        = sampleState.syllabusConversation
      ∧ (processConversation sampleState sampleInput sampleEnvErr).1.coursesConversation
        = sampleState.coursesConversation
      ∧ (processConversation sampleState sampleInput sampleEnvErr).1.textInput
        = sampleState.textInput
      ∧ (processConversation sampleState sampleInput sampleEnvErr).1.audioBlob
        = sampleState.audioBlob
      ∧ (processConversation sampleState sampleInput sampleEnvErr).2.alertRaised = true
      ∧ (processConversation sampleState sampleInput sampleEnvErr).1.isProcessing
        = false) :=
  ⟨rfl, failed_submission_atomic sampleState sampleInput sampleEnvErr rfl⟩

/-- C4: submitting with neither non-whitespace text nor a recorded blob is a
no-op for both submit handlers: the state is unchanged, no request is sent
and no alert is raised. -/
theorem empty_submission_noop (s : AppState) (env : Env)
    (ht : (jsTrim s.textInput).isEmpty = true)
    (ha : s.audioBlob = none) :
    handleTextSubmit s env = (s, noEffects)
    ∧ handleVoiceSubmit s env = (s, noEffects)
    ∧ noEffects.requestSent = none := by
  refine ⟨?_, ?_, rfl⟩
  · simp [handleTextSubmit, ht]
  · simp [handleVoiceSubmit, ha]

/-- Witness for C4 at a concrete whitespace-only state. -/
theorem empty_submission_noop_witness :
    (jsTrim idleState.textInput).isEmpty = true
    ∧ idleState.audioBlob = none
    ∧ (handleTextSubmit idleState sampleEnvOk = (idleState, noEffects)
      ∧ handleVoiceSubmit idleState sampleEnvOk = (idleState, noEffects)
      ∧ noEffects.requestSent = none) :=
  ⟨by decide, rfl, empty_submission_noop idleState sampleEnvOk (by decide) rfl⟩

/-- C5: whenever the client decodes a base64 audio payload, the byte array
it builds (one byte per character of the decoded string) has length equal to
the decoded size of the original encoded payload. -/
theorem atob_decoded_length (s : String) (bs : List Nat)
    (h : atobBytes s = some bs) :
    bs.length = b64DecodedSize s := by
  unfold atobBytes at h
  by_cases h4 : (effectiveChars s).length % 4 = 1
  · rw [if_pos h4] at h; cases h
  · rw [if_neg h4] at h
    cases hd : decodeChars (effectiveChars s) with
    | none => rw [hd] at h; cases h
    | some vals =>
        rw [hd] at h
        injection h with h
        have hlen := decodeChars_length _ vals hd
        have hb := sextetsToBytes_length vals (by rw [hlen]; exact h4)
        rw [← h, hb, hlen]
        rfl

/-- Witness for C5 at a concrete payload. -/
theorem atob_decoded_length_witness :
    atobBytes sampleB64 = some sampleBytes
    ∧ sampleBytes.length = b64DecodedSize sampleB64 :=
  ⟨by decide, atob_decoded_length sampleB64 sampleBytes (by decide)⟩

/-- C6: the transcript append is order-preserving and the store append-only:
appending places the entry at the end, keeps every pre-existing entry at its
position, leaves the other transcript alone, and every operation of the
component only ever extends a transcript on the right (none deletes or edits
an entry). -/
theorem append_order_preserving_append_only (s : AppState)
    (e : ConversationEntry) (input : Input) (env env2 env3 env4 : Env)
    (ev : KeyEvent) (m m' : Mode) :
    transcriptOf (setCurrentConversation s (fun prev => prev ++ [e])) s.mode
      = transcriptOf s s.mode ++ [e]
    ∧ (transcriptOf (setCurrentConversation s (fun prev => prev ++ [e])) s.mode).take
        (transcriptOf s s.mode).length = transcriptOf s s.mode
    ∧ transcriptOf (setCurrentConversation s (fun prev => prev ++ [e])) s.mode.other
      = transcriptOf s s.mode.other
    ∧ (∃ rest, transcriptOf (processConversation s input env).1 m
        = transcriptOf s m ++ rest)
    ∧ (∃ rest, transcriptOf (handleTextSubmit s env2).1 m
        = transcriptOf s m ++ rest)
    ∧ (∃ rest, transcriptOf (handleVoiceSubmit s env3).1 m
        = transcriptOf s m ++ rest)
    ∧ (∃ rest, transcriptOf (handleKeyPress s ev env4).1 m
        = transcriptOf s m ++ rest)
    ∧ transcriptOf (setMode s m) m' = transcriptOf s m' := by
  have happ := transcriptOf_setCurrentConversation_self s (fun prev => prev ++ [e])
  refine ⟨happ, ?_, transcriptOf_setCurrentConversation_other s _,
    processConversation_transcript_extends s input env m,
    handleTextSubmit_transcript_extends s env2 m,
    handleVoiceSubmit_transcript_extends s env3 m,
    handleKeyPress_transcript_extends s ev env4 m, ?_⟩
  · rw [happ]
    exact List.take_left _ _
  · cases m' <;> simp [setMode, transcriptOf]

/-- C7: while a submission is pending, the text send button, the voice send
button, the microphone button and the textarea are all disabled, and the
Enter-key handler dispatches nothing. -/
theorem processing_disables_submission (s : AppState) (e : KeyEvent)
    (env : Env) (hp : s.isProcessing = true) :
    textSendButtonDisabled s = true
    ∧ voiceSendButtonDisabled s = true
    ∧ micButtonDisabled s = true
    ∧ textareaDisabled s = true
    ∧ handleKeyPress s e env = (s, noEffects) := by
  refine ⟨?_, ?_, ?_, ?_, ?_⟩
  · simp [textSendButtonDisabled, hp]
  · simp [voiceSendButtonDisabled, hp]
  · simp [micButtonDisabled, hp]
  · simp [textareaDisabled, hp]
  · unfold handleKeyPress
    by_cases h1 : e.key = "Enter" && !e.shiftKey
    · simp [h1, hp]
    · simp [h1]

/-- Witness for C7 at a concrete busy state. -/
theorem processing_disables_submission_witness :
    busyState.isProcessing = true
    ∧ (textSendButtonDisabled busyState = true
      ∧ voiceSendButtonDisabled busyState = true
      ∧ micButtonDisabled busyState = true
      ∧ textareaDisabled busyState = true
      ∧ handleKeyPress busyState enterKey sampleEnvOk = (busyState, noEffects)) :=
  ⟨rfl, processing_disables_submission busyState enterKey sampleEnvOk rfl⟩

/-- C8: after every successful submission, that is, every run of
processConversation that raises no alert (the POST succeeded and the atob
call did not throw), the pending inputs are reset: the text input becomes
empty and the recorded blob is discarded. -/
theorem success_clears_inputs (s : AppState) (input : Input) (env : Env)
    (hok : (processConversation s input env).2.alertRaised = false) :
    (processConversation s input env).1.textInput = ""
    ∧ (processConversation s input env).1.audioBlob = none := by
  cases henv : env.result with
  | error u => simp [processConversation, henv] at hok
  | ok data =>
      by_cases hdec : audioDecodeOk data
      · cases hm : s.mode <;>
          simp [processConversation, henv, hdec, setCurrentConversation, hm]
      · simp [processConversation, henv, hdec] at hok

/-- Witness for C8 at a concrete state and alert-free run. -/
theorem success_clears_inputs_witness :
    (processConversation sampleState sampleInput sampleEnvOk).2.alertRaised = false
    ∧ ((processConversation sampleState sampleInput sampleEnvOk).1.textInput = ""
      ∧ (processConversation sampleState sampleInput sampleEnvOk).1.audioBlob
        = none) :=
  ⟨by decide, success_clears_inputs sampleState sampleInput sampleEnvOk (by decide)⟩

/-- C9: when microphone access is denied, startRecording raises the alert
and leaves the component state untouched: in particular the recording flag
is not set and no chunks are buffered. -/
theorem mic_denied_alert_no_start (s : RecordState) :
    (startRecording s (Except.error ())).2 = true
    ∧ (startRecording s (Except.error ())).1 = s
    ∧ (startRecording s (Except.error ())).1.isRecording = s.isRecording
    ∧ (startRecording s (Except.error ())).1.chunks = s.chunks :=
  ⟨rfl, rfl, rfl, rfl⟩

/-- C10: the timer formatter renders elapsed seconds as minutes and seconds
separated by a colon, minutes being the floor of division by sixty and
seconds the remainder, each zero-padded to width at least two; the seconds
field is exactly two characters and its value is below sixty. -/
theorem formatTime_mm_ss (n : Nat) :
    formatTime n
      = padStart (toString (n / 60)) 2 '0' ++ String.mk [':']
          ++ padStart (toString (n % 60)) 2 '0'
    ∧ (padStart (toString (n % 60)) 2 '0').length = 2
    ∧ n % 60 < 60
    ∧ 2 ≤ (padStart (toString (n / 60)) 2 '0').length
    ∧ (formatTime n).length
        = (padStart (toString (n / 60)) 2 '0').length + 3 := by
  have hss : ∀ m, m < 60 → (padStart (toString m) 2 '0').length = 2 := by decide
  have h60 : n % 60 < 60 := Nat.mod_lt _ (by norm_num)
  refine ⟨rfl, hss _ h60, h60, ?_, ?_⟩
  · rw [padStart_length]
    omega
  · simp [formatTime, String.length_append, String.length_mk, hss _ h60]
    rfl

end KCVoice
